import Mathlib

/-!
Verification of the StagePOV audio engine (src/unnamed/part_006, the full
AudioEngine class, together with its callers and src/types.ts) against its
natural-language specification.  The TypeScript code is shallowly embedded:
samples and parameter values are rationals, byte buffers are lists of
naturals, the mutable AudioEngine object is an explicit state record, and
Web Audio node handles are records tagged with the id of the context that
created them.
-/

namespace StagePOV

/-! ## Byte-level helpers (DataView semantics)

DataView.setUint16 / setUint32 with littleEndian = true store the value
modulo 2^16 / 2^32 as little-endian bytes; setInt16 stores the two's
complement.  These model the platform primitives used by audioBufferToWav. -/

/-- Little-endian bytes written by DataView.setUint16 (value taken mod 2^16). -/
def setUint16LE (n : ℕ) : List ℕ :=
  [n % 256, n / 256 % 256]

/-- Little-endian bytes written by DataView.setUint32 (value taken mod 2^32). -/
def setUint32LE (n : ℕ) : List ℕ :=
  [n % 256, n / 256 % 256, n / 65536 % 256, n / 16777216 % 256]

/-- Little-endian two's-complement bytes written by DataView.setInt16. -/
def setInt16LE (v : ℤ) : List ℕ :=
  setUint16LE (v % 65536).toNat

/-- Decode the first two bytes of a list as an unsigned little-endian 16-bit word. -/
def readUint16LE (l : List ℕ) : ℕ :=
  match l with
  | a :: b :: _ => a + 256 * b
  | _ => 0

/-- Decode the first four bytes of a list as an unsigned little-endian 32-bit word. -/
def readUint32LE (l : List ℕ) : ℕ :=
  match l with
  | a :: b :: c :: d :: _ => a + 256 * b + 65536 * c + 16777216 * d
  | _ => 0

/-- Decode two little-endian bytes as a signed (two's-complement) 16-bit value. -/
def readInt16LE (l : List ℕ) : ℤ :=
  if readUint16LE l < 32768 then (readUint16LE l : ℤ) else (readUint16LE l : ℤ) - 65536

/-- Decode three little-endian bytes as a signed (two's-complement) 24-bit value. -/
def readInt24LE (l : List ℕ) : ℤ :=
  match l with
  | a :: b :: c :: _ =>
      if a + 256 * b + 65536 * c < 8388608 then ((a + 256 * b + 65536 * c : ℕ) : ℤ)
      else ((a + 256 * b + 65536 * c : ℕ) : ℤ) - 16777216
  | _ => 0

/-! ## Sample quantization (audioBufferToWav, per-sample paths) -/

/-- JavaScript "| 0": truncation of a finite number toward zero. -/
def jsTrunc (q : ℚ) : ℤ :=
  if q < 0 then -(⌊-q⌋) else ⌊q⌋

/-- The clamp "Math.max(-1, Math.min(1, x))" applied to every sample before the
bit-depth switch in audioBufferToWav. -/
def clampSample (s : ℚ) : ℚ :=
  max (-1) (min 1 s)

/-- 16-bit path of audioBufferToWav:
"sample = (sample < 0 ? sample * 0x8000 : sample * 0x7FFF) | 0" after the clamp. -/
def quant16 (s : ℚ) : ℤ :=
  let c := clampSample s
  jsTrunc (if c < 0 then c * 0x8000 else c * 0x7FFF)

/-- 24-bit path of audioBufferToWav:
"sample = (sample < 0 ? sample * 0x800000 : sample * 0x7FFFFF) | 0" after the clamp. -/
def quant24 (s : ℚ) : ℤ :=
  let c := clampSample s
  jsTrunc (if c < 0 then c * 0x800000 else c * 0x7FFFFF)

/-- The three setUint8 writes of the 24-bit path: low, middle and high byte of
the int32 value ("sample & 0xFF", "(sample >> 8) & 0xFF", "(sample >> 16) &
0xFF" on the two's complement representation). -/
def int24Bytes (v : ℤ) : List ℕ :=
  [(v % 4294967296).toNat % 256, (v % 4294967296).toNat / 256 % 256,
   (v % 4294967296).toNat / 65536 % 256]

/-! ## The WAV container (AudioEngine.audioBufferToWav) -/

/-- The bit depths admitted by src/types.ts ("bitDepth: 16 | 24 | 32"). -/
inductive BitDepth where
  | b16
  | b24
  | b32
deriving DecidableEq

/-- Numeric value of the bit depth, as passed around the TypeScript code. -/
def BitDepth.bits : BitDepth → ℕ
  | .b16 => 16
  | .b24 => 24
  | .b32 => 32

/-- "bitDepth / 8" for the three legal depths. -/
def bytesPerSample (d : BitDepth) : ℕ :=
  d.bits / 8

/-- A decoded or rendered AudioBuffer: channel count, frame count, sample rate
and the float sample data (channelData ch i is channel ch at frame i). -/
structure ModelAudioBuffer where
  numberOfChannels : ℕ
  length : ℕ
  sampleRate : ℕ
  channelData : ℕ → ℕ → ℚ

/-- One sample of the interleaved data section.  The 16- and 24-bit branches
write the quantized integer; the 32-bit branch hands the clamped sample to
DataView.setFloat32, modelled by the abstract serializer f32. -/
def sampleBytes (f32 : ℚ → List ℕ) (d : BitDepth) (s : ℚ) : List ℕ :=
  match d with
  | .b16 => setInt16LE (quant16 s)
  | .b24 => int24Bytes (quant24 s)
  | .b32 => f32 (clampSample s)

/-- The 44-byte header written by audioBufferToWav, in write order. -/
def wavHeader (b : ModelAudioBuffer) (d : BitDepth) : List ℕ :=
  let len := b.length * b.numberOfChannels * bytesPerSample d
  setUint32LE 0x46464952 ++
  setUint32LE (44 + len - 8) ++
  setUint32LE 0x45564157 ++
  setUint32LE 0x20746d66 ++
  setUint32LE 16 ++
  setUint16LE 1 ++
  setUint16LE b.numberOfChannels ++
  setUint32LE b.sampleRate ++
  setUint32LE (b.sampleRate * b.numberOfChannels * bytesPerSample d) ++
  setUint16LE (b.numberOfChannels * bytesPerSample d) ++
  setUint16LE d.bits ++
  setUint32LE 0x61746164 ++
  setUint32LE len

/-- The interleaved data section: the while loop writes, for each frame offset
in order, one encoded sample per channel. -/
def wavData (f32 : ℚ → List ℕ) (b : ModelAudioBuffer) (d : BitDepth) : List ℕ :=
  (List.range b.length).flatMap fun off =>
    (List.range b.numberOfChannels).flatMap fun ch =>
      sampleBytes f32 d (b.channelData ch off)

/-- AudioEngine.audioBufferToWav: header followed by interleaved sample data. -/
def audioBufferToWav (f32 : ℚ → List ℕ) (b : ModelAudioBuffer) (d : BitDepth) : List ℕ :=
  wavHeader b d ++ wavData f32 b d

/-! ## The impulse response (AudioEngine.createImpulseResponse)

The synthesized buffer is represented intensionally by the data that fully
determines it: context sample rate, computed length, decay and the
Math.random draw sequence it consumes; IRBuffer.sample gives the
channelData contents. -/

/-- "const length = sampleRate * duration" as an integer sample count. -/
def irLength (sampleRate : ℕ) (duration : ℚ) : ℕ :=
  (⌊(sampleRate : ℚ) * duration⌋).toNat

/-- A synthesized stereo impulse-response buffer. -/
structure IRBuffer where
  sampleRate : ℕ
  length : ℕ
  decay : ℚ
  noise : ℕ → ℚ

/-- AudioEngine.createImpulseResponse(ctx, duration, decay): a stereo buffer
of sampleRate * duration samples whose contents are determined by the decay
exponent and the Math.random draws (modelled by the noise stream, already
mapped to noise() = random()*2-1 values). -/
def createImpulseResponse (sampleRate : ℕ) (duration decay : ℚ) (noise : ℕ → ℚ) :
    IRBuffer :=
  ⟨sampleRate, irLength sampleRate duration, decay, noise⟩

/-- Contents of the synthesized buffer:
channelData[c][i] = noise * Math.pow(1 - i / length, decay), one fresh
Math.random draw per sample, channel 0 written before channel 1. -/
noncomputable def IRBuffer.sample (b : IRBuffer) (c i : ℕ) : ℝ :=
  if c < 2 ∧ i < b.length then
    (b.noise (c * b.length + i) : ℝ) *
      ((((1 : ℚ) - (i : ℚ) / (b.length : ℚ)) : ℝ) ^ ((b.decay : ℚ) : ℝ))
  else 0

/-! ## Web Audio node handles

Each node record carries the id of the BaseAudioContext that created it
(ctxId), so that ownership by the live versus offline context is visible in
the state.  An AudioParamQ records the last applied automation target and
the time constant of the last setTargetAtTime call (0 for a direct
.value assignment). -/

structure AudioParamQ where
  target : ℚ
  timeConst : ℚ

/-- An AudioContext / OfflineAudioContext, as far as the engine reads it. -/
structure Ctx where
  id : ℕ
  sampleRate : ℕ

structure GainNode where
  ctxId : ℕ
  gain : AudioParamQ

structure BiquadFilterNode where
  ctxId : ℕ
  kind : String
  frequency : AudioParamQ
  qfactor : AudioParamQ
  gain : AudioParamQ

structure DelayNode where
  ctxId : ℕ
  maxDelay : ℚ
  delayTime : AudioParamQ

/-- DynamicsCompressorNode; compressionRatio models its .ratio param. -/
structure DynamicsCompressorNode where
  ctxId : ℕ
  threshold : AudioParamQ
  knee : AudioParamQ
  compressionRatio : AudioParamQ
  attack : AudioParamQ
  release : AudioParamQ

structure PannerNode where
  ctxId : ℕ
  panningModel : String
  distanceModel : String
  refDistance : ℚ
  maxDistance : ℚ
  rolloffFactor : ℚ
  positionX : AudioParamQ
  positionY : AudioParamQ
  positionZ : AudioParamQ

structure AnalyserNode where
  ctxId : ℕ
  fftSize : ℕ

structure ConvolverNode where
  ctxId : ℕ
  buffer : IRBuffer

/-! ## The AudioEngine object (src/unnamed/part_006)

One field per private class field; every node field starts out null. -/

structure AudioEngine where
  context : Option Ctx := none
  source : Option ℕ := none
  panner : Option PannerNode := none
  gainNode : Option GainNode := none
  analyser : Option AnalyserNode := none
  compressor : Option DynamicsCompressorNode := none
  bassFilter : Option BiquadFilterNode := none
  trebleFilter : Option BiquadFilterNode := none
  midFilter : Option BiquadFilterNode := none
  xCurveFilter : Option BiquadFilterNode := none
  heightFilter : Option BiquadFilterNode := none
  lfeCrossover : Option BiquadFilterNode := none
  delayNode : Option DelayNode := none
  hdLowFilter : Option BiquadFilterNode := none
  hdMidDip : Option BiquadFilterNode := none
  hdHighFilter : Option BiquadFilterNode := none
  reverbNode : Option ConvolverNode := none
  dryGain : Option GainNode := none
  wetGain : Option GainNode := none

/-- A freshly constructed AudioEngine (all fields null). -/
def freshEngine : AudioEngine := {}

/-- AudioEngine.setupGraph(ctx, source, destination): allocates every node on
ctx and assigns it to the corresponding instance field, with the initial
parameter values the code writes (createBiquadFilter defaults: gain 0, Q 1,
and the explicit assignments of the source).  Node connections carry no
observable state for the verified properties and are not recorded.  noise is
the Math.random stream consumed by the default impulse response. -/
def setupGraph (ctxId sampleRate : ℕ) (noise : ℕ → ℚ) (e : AudioEngine) : AudioEngine :=
  { e with
    analyser := some ⟨ctxId, 2048⟩,
    gainNode := some ⟨ctxId, ⟨1.0, 0⟩⟩,
    compressor := some ⟨ctxId, ⟨-0.5, 0⟩, ⟨0, 0⟩, ⟨20, 0⟩, ⟨0.001, 0⟩, ⟨0.1, 0⟩⟩,
    delayNode := some ⟨ctxId, 1.0, ⟨0, 0⟩⟩,
    midFilter := some ⟨ctxId, "peaking", ⟨3200, 0⟩, ⟨0.8, 0⟩, ⟨0, 0⟩⟩,
    bassFilter := some ⟨ctxId, "lowshelf", ⟨120, 0⟩, ⟨1, 0⟩, ⟨0, 0⟩⟩,
    trebleFilter := some ⟨ctxId, "highshelf", ⟨10000, 0⟩, ⟨1, 0⟩, ⟨0, 0⟩⟩,
    xCurveFilter := some ⟨ctxId, "highshelf", ⟨8000, 0⟩, ⟨1, 0⟩, ⟨0, 0⟩⟩,
    heightFilter := some ⟨ctxId, "peaking", ⟨12000, 0⟩, ⟨1, 0⟩, ⟨0, 0⟩⟩,
    lfeCrossover := some ⟨ctxId, "lowshelf", ⟨80, 0⟩, ⟨1, 0⟩, ⟨0, 0⟩⟩,
    hdLowFilter := some ⟨ctxId, "lowshelf", ⟨60, 0⟩, ⟨1, 0⟩, ⟨0, 0⟩⟩,
    hdMidDip := some ⟨ctxId, "peaking", ⟨500, 0⟩, ⟨1.0, 0⟩, ⟨0, 0⟩⟩,
    hdHighFilter := some ⟨ctxId, "highshelf", ⟨12000, 0⟩, ⟨1, 0⟩, ⟨0, 0⟩⟩,
    reverbNode := some ⟨ctxId, createImpulseResponse sampleRate 1.2 3.0 noise⟩,
    dryGain := some ⟨ctxId, ⟨1.2, 0⟩⟩,
    wetGain := some ⟨ctxId, ⟨0.0, 0⟩⟩,
    panner := some ⟨ctxId, "HRTF", "inverse", 3, 10000, 0.5, ⟨0, 0⟩, ⟨0, 0⟩, ⟨0, 0⟩⟩ }

/-- AudioEngine.init on its success path: after tearing down any previous
context, creates a fresh AudioContext at the requested sample rate, binds
the media-element source to it and builds the graph. -/
def init (ctxId sampleRate : ℕ) (noise : ℕ → ℚ) (e : AudioEngine) : AudioEngine :=
  setupGraph ctxId sampleRate noise
    { e with context := some ⟨ctxId, sampleRate⟩, source := some ctxId }

/-! ## Parameter setters

Each setter guards on "this.node && this.context" (equivalently modelled
with the context scrutinized first) and calls gain.setTargetAtTime(value,
currentTime, timeConstant); optional chaining "node?." is Option.map. -/

/-- node?.gain.setTargetAtTime(v, t, tc) on a biquad filter. -/
def filterGainTarget (v tc : ℚ) : Option BiquadFilterNode → Option BiquadFilterNode :=
  Option.map fun f => { f with gain := ⟨v, tc⟩ }

/-- gain.setTargetAtTime(v, t, tc) on a GainNode. -/
def gainTarget (v tc : ℚ) : Option GainNode → Option GainNode :=
  Option.map fun g => { g with gain := ⟨v, tc⟩ }

def setVolume (value : ℚ) (e : AudioEngine) : AudioEngine :=
  match e.context, e.gainNode with
  | some _, some g => { e with gainNode := some { g with gain := ⟨value, 0.05⟩ } }
  | _, _ => e

def setBass (value : ℚ) (e : AudioEngine) : AudioEngine :=
  match e.context, e.bassFilter with
  | some _, some f => { e with bassFilter := some { f with gain := ⟨value, 0.1⟩ } }
  | _, _ => e

def setTreble (value : ℚ) (e : AudioEngine) : AudioEngine :=
  match e.context, e.trebleFilter with
  | some _, some f => { e with trebleFilter := some { f with gain := ⟨value, 0.1⟩ } }
  | _, _ => e

/-- setVocalClarity: gain = (value - 5) * 2. -/
def setVocalClarity (value : ℚ) (e : AudioEngine) : AudioEngine :=
  match e.context, e.midFilter with
  | some _, some f => { e with midFilter := some { f with gain := ⟨(value - 5) * 2, 0.1⟩ } }
  | _, _ => e

def setReverb (value : ℚ) (e : AudioEngine) : AudioEngine :=
  match e.context, e.wetGain with
  | some _, some g => { e with wetGain := some { g with gain := ⟨value, 0.1⟩ } }
  | _, _ => e

/-- setDRC: threshold = -0.5 - value * 12. -/
def setDRC (value : ℚ) (e : AudioEngine) : AudioEngine :=
  match e.context, e.compressor with
  | some _, some c =>
      { e with compressor := some { c with threshold := ⟨-0.5 - value * 12, 0.1⟩ } }
  | _, _ => e

def setHdMode (enabled : Bool) (e : AudioEngine) : AudioEngine :=
  match e.context with
  | none => e
  | some _ =>
      if enabled then
        { e with
          hdLowFilter := filterGainTarget 4 0.2 e.hdLowFilter,
          hdMidDip := filterGainTarget (-3) 0.2 e.hdMidDip,
          hdHighFilter := filterGainTarget 6 0.2 e.hdHighFilter }
      else
        { e with
          hdLowFilter := filterGainTarget 0 0.2 e.hdLowFilter,
          hdMidDip := filterGainTarget 0 0.2 e.hdMidDip,
          hdHighFilter := filterGainTarget 0 0.2 e.hdHighFilter }

def setTheaterMode (enabled : Bool) (e : AudioEngine) : AudioEngine :=
  match e.context with
  | none => e
  | some _ =>
      if enabled then
        { e with
          xCurveFilter := filterGainTarget (-1.5) 0.5 e.xCurveFilter,
          bassFilter := filterGainTarget 4 0.5 e.bassFilter,
          midFilter := filterGainTarget 3 0.5 e.midFilter }
      else
        { e with
          xCurveFilter := filterGainTarget 0 0.5 e.xCurveFilter,
          bassFilter := filterGainTarget 0 0.5 e.bassFilter,
          midFilter := filterGainTarget 0 0.5 e.midFilter }

/-- AudioEngine.applyPreset.  Returns none exactly when the non-null
assertion "this.reverbNode!.buffer = ..." would throw (reverbNode null in
the IMAX Enhanced or Concert Auditorium arm); otherwise some of the updated
engine.  noise is the Math.random stream of the regenerated impulse
response. -/
def applyPreset (noise : ℕ → ℚ) (name : String) (e : AudioEngine) : Option AudioEngine :=
  match e.context with
  | none => some e
  | some ctx =>
      let e1 := { e with
        bassFilter := filterGainTarget 0 0.2 e.bassFilter,
        trebleFilter := filterGainTarget 0 0.2 e.trebleFilter,
        midFilter := filterGainTarget 0 0.2 e.midFilter }
      if name = "IMAX Enhanced" then
        match e1.reverbNode with
        | none => none
        | some r => some { e1 with
            bassFilter := filterGainTarget 8 0.2 e1.bassFilter,
            midFilter := filterGainTarget 3 0.2 e1.midFilter,
            trebleFilter := filterGainTarget 2 0.2 e1.trebleFilter,
            reverbNode :=
              some { r with buffer := createImpulseResponse ctx.sampleRate 2.5 1.5 noise } }
      else if name = "THX Reference" then
        some { e1 with midFilter := filterGainTarget 1 0.2 e1.midFilter }
      else if name = "Concert Auditorium" then
        match e1.reverbNode with
        | none => none
        | some r => some { e1 with
            trebleFilter := filterGainTarget 1 0.2 e1.trebleFilter,
            reverbNode :=
              some { r with buffer := createImpulseResponse ctx.sampleRate 3.5 2.0 noise } }
      else if name = "Vintage Cinema" then
        some { e1 with
          midFilter := filterGainTarget 5 0.2 e1.midFilter,
          xCurveFilter := filterGainTarget (-4) 0.2 e1.xCurveFilter }
      else
        some e1

/-- setHeightLevel: gain = value * 6. -/
def setHeightLevel (value : ℚ) (e : AudioEngine) : AudioEngine :=
  match e.context, e.heightFilter with
  | some _, some f => { e with heightFilter := some { f with gain := ⟨value * 6, 0.2⟩ } }
  | _, _ => e

def setLfeCrossover (hz : ℚ) (e : AudioEngine) : AudioEngine :=
  match e.context, e.lfeCrossover with
  | some _, some f => { e with lfeCrossover := some { f with frequency := ⟨hz, 0.1⟩ } }
  | _, _ => e

/-- setSpeakerCalibration: delayTime = (delayMs + phaseMs) / 1000 seconds. -/
def setSpeakerCalibration (delayMs phaseMs : ℚ) (e : AudioEngine) : AudioEngine :=
  match e.context, e.delayNode with
  | some _, some dn =>
      { e with delayNode := some { dn with delayTime := ⟨(delayMs + phaseMs) / 1000, 0.1⟩ } }
  | _, _ => e

/-- setSpatialPosition: UI coordinates scaled by 5 into panner space. -/
def setSpatialPosition (x y z : ℚ) (e : AudioEngine) : AudioEngine :=
  match e.context, e.panner with
  | some _, some p =>
      { e with panner := some { p with
          positionX := ⟨x * 5, 0.2⟩, positionY := ⟨y * 5, 0.2⟩, positionZ := ⟨z * 5, 0.2⟩ } }
  | _, _ => e

/-- AudioEngine.getAnalyserData: with no analyser returns new Uint8Array(0);
otherwise a Uint8Array of analyser.frequencyBinCount = fftSize / 2 bytes
filled by getByteFrequencyData.  snapshot is the platform magnitude data;
storing into a Uint8Array keeps the low byte. -/
def getAnalyserData (snapshot : ℕ → ℕ) (e : AudioEngine) : List ℕ :=
  match e.analyser with
  | none => []
  | some a => (List.range (a.fftSize / 2)).map fun i => snapshot i % 256

/-! ## AudioSettings (src/types.ts) and renderOffline -/

/-- The AudioSettings record of src/types.ts, plus the isHdAudioEnabled flag
renderOffline reads. -/
structure AudioSettings where
  volume : ℚ
  bass : ℚ
  treble : ℚ
  vocalClarity : ℚ
  spatiality : ℚ
  reverbLevel : ℚ
  isAtmosEnabled : Bool
  selectedPreset : String
  isTheaterMode : Bool
  isHeadTrackingEnabled : Bool
  isDolbyVisionEnabled : Bool
  isHdAudioEnabled : Bool
  surroundLevel : ℚ
  heightLevel : ℚ
  drc : ℚ
  lfeCrossover : ℚ
  centerSpread : ℚ
  speakerDelay : ℚ
  phaseAlignment : ℚ
  bitDepth : BitDepth
  sampleRate : ℕ

/-- gain.value = v on an (asserted non-null) biquad filter field. -/
def filterGainValue (v : ℚ) : Option BiquadFilterNode → Option BiquadFilterNode :=
  Option.map fun f => { f with gain := ⟨v, 0⟩ }

/-- gain.value = v on an (asserted non-null) GainNode field. -/
def gainValue (v : ℚ) : Option GainNode → Option GainNode :=
  Option.map fun g => { g with gain := ⟨v, 0⟩ }

/-- AudioEngine.renderOffline, decode already done.  decoded is the
AudioBuffer produced by tempCtx.decodeAudioData (its length and sampleRate
are those of the throwaway decode context, not of settings); the code then
builds new OfflineAudioContext(2, decoded.length, settings.sampleRate), runs
setupGraph on it - overwriting the instance node fields - applies the
settings as direct .value assignments, renders, and encodes the rendered
buffer.  Returns the engine state left behind and the WAV bytes.
offCtxId identifies the OfflineAudioContext; noiseGraph and noisePreset are
the Math.random streams of the default and the IMAX-preset impulse
response; dsp is the rendered sample data produced by startRendering (the
platform DSP, outside this repository); f32 the platform float32 bytes. -/
def renderOffline (e : AudioEngine) (decoded : ModelAudioBuffer) (s : AudioSettings)
    (offCtxId : ℕ) (noiseGraph noisePreset : ℕ → ℚ) (dsp : ℕ → ℕ → ℚ)
    (f32 : ℚ → List ℕ) : AudioEngine × List ℕ :=
  let e1 := setupGraph offCtxId s.sampleRate noiseGraph e
  let e2 := { e1 with
    bassFilter := filterGainValue s.bass e1.bassFilter,
    trebleFilter := filterGainValue s.treble e1.trebleFilter,
    midFilter := filterGainValue ((s.vocalClarity - 5) * 2) e1.midFilter,
    heightFilter := filterGainValue (s.heightLevel * 6) e1.heightFilter }
  -- (settings.bass || 0) equals settings.bass on rationals (0 is the only falsy value)
  let e3 := if s.isTheaterMode then
      { e2 with
        xCurveFilter := filterGainValue (-1.5) e2.xCurveFilter,
        bassFilter := filterGainValue (s.bass + 4) e2.bassFilter,
        midFilter := filterGainValue ((s.vocalClarity - 5) * 2 + 3) e2.midFilter }
    else e2
  let e4 := if s.isHdAudioEnabled then
      { e3 with
        hdLowFilter := filterGainValue 4 e3.hdLowFilter,
        hdMidDip := filterGainValue (-3) e3.hdMidDip,
        hdHighFilter := filterGainValue 6 e3.hdHighFilter }
    else e3
  let e5 := { e4 with wetGain := gainValue s.reverbLevel e4.wetGain }
  let e6 := if s.selectedPreset = "IMAX Enhanced" then
      { e5 with reverbNode := e5.reverbNode.map fun r =>
          { r with buffer := createImpulseResponse s.sampleRate 2.5 1.5 noisePreset } }
    else e5
  let e7 := { e6 with gainNode := gainValue s.volume e6.gainNode }
  let e8 := { e7 with compressor := e7.compressor.map fun c =>
      { c with threshold := ⟨-0.5 - s.drc * 12, 0⟩ } }
  let rendered : ModelAudioBuffer := ⟨2, decoded.length, s.sampleRate, dsp⟩
  (e8, audioBufferToWav f32 rendered s.bitDepth)

/-! ## Derived state used by the verified properties -/

/-- A live engine: a fresh AudioEngine after init(element, 48000, 16), the
default configuration of App.tsx, with context id 0 and a fixed noise
stream. -/
def engine0 : AudioEngine := init 0 48000 (fun _ => 0) freshEngine

/-- The filter-gain state applyPreset manipulates: the gain params of the
bass, treble, mid/vocal and x-curve filters. -/
def filterGainState (e : AudioEngine) :
    Option AudioParamQ × Option AudioParamQ × Option AudioParamQ × Option AudioParamQ :=
  (e.bassFilter.map BiquadFilterNode.gain, e.trebleFilter.map BiquadFilterNode.gain,
   e.midFilter.map BiquadFilterNode.gain, e.xCurveFilter.map BiquadFilterNode.gain)

/-- Every node-handle field of the engine is populated and owned by the
context with id c. -/
def nodesOnCtx (e : AudioEngine) (c : ℕ) : Prop :=
  e.panner.map PannerNode.ctxId = some c ∧
  e.gainNode.map GainNode.ctxId = some c ∧
  e.analyser.map AnalyserNode.ctxId = some c ∧
  e.compressor.map DynamicsCompressorNode.ctxId = some c ∧
  e.bassFilter.map BiquadFilterNode.ctxId = some c ∧
  e.trebleFilter.map BiquadFilterNode.ctxId = some c ∧
  e.midFilter.map BiquadFilterNode.ctxId = some c ∧
  e.xCurveFilter.map BiquadFilterNode.ctxId = some c ∧
  e.heightFilter.map BiquadFilterNode.ctxId = some c ∧
  e.lfeCrossover.map BiquadFilterNode.ctxId = some c ∧
  e.delayNode.map DelayNode.ctxId = some c ∧
  e.hdLowFilter.map BiquadFilterNode.ctxId = some c ∧
  e.hdMidDip.map BiquadFilterNode.ctxId = some c ∧
  e.hdHighFilter.map BiquadFilterNode.ctxId = some c ∧
  e.reverbNode.map ConvolverNode.ctxId = some c ∧
  e.dryGain.map GainNode.ctxId = some c ∧
  e.wetGain.map GainNode.ctxId = some c

/-- The sample-rate field a WAV reader decodes from bytes 24-27. -/
def wavDeclaredSampleRate (w : List ℕ) : ℕ := readUint32LE ((w.drop 24).take 4)

/-- The data-chunk byte length a WAV reader decodes from bytes 40-43. -/
def wavDeclaredDataLength (w : List ℕ) : ℕ := readUint32LE ((w.drop 40).take 4)

/-- Frame count a WAV reader derives: data length over block align. -/
def wavDeclaredFrames (w : List ℕ) (channels bps : ℕ) : ℕ :=
  wavDeclaredDataLength w / (channels * bps)

/-- Duration in seconds a WAV reader derives: frames over sample rate. -/
def wavDeclaredDuration (w : List ℕ) (channels bps : ℕ) : ℚ :=
  (wavDeclaredFrames w channels bps : ℚ) / (wavDeclaredSampleRate w : ℚ)

/-- A neutral AudioSettings record ("Pure Direct", all macros off) with target
sample rate 1 Hz and 16-bit depth, used as concrete render input. -/
def settings0 : AudioSettings :=
  { volume := 1, bass := 0, treble := 0, vocalClarity := 5, spatiality := 0,
    reverbLevel := 0, isAtmosEnabled := false, selectedPreset := "Pure Direct",
    isTheaterMode := false, isHeadTrackingEnabled := false,
    isDolbyVisionEnabled := false, isHdAudioEnabled := false, surroundLevel := 0,
    heightLevel := 0, drc := 0, lfeCrossover := 80, centerSpread := 0,
    speakerDelay := 0, phaseAlignment := 0, bitDepth := .b16, sampleRate := 1 }

/-- The live default engine after one applyPreset of a neutral preset name. -/
def presetOnce : AudioEngine :=
  (applyPreset (fun _ => 0) "Pure Direct" engine0).getD freshEngine

/-! ## Supporting lemmas -/

theorem length_bind_const {α : Type} (n c : ℕ) (f : ℕ → List α)
    (h : ∀ i, (f i).length = c) : ((List.range n).flatMap f).length = n * c := by
  induction n with
  | zero => simp
  | succ m ih =>
      rw [List.range_succ, List.flatMap_append, List.length_append, ih]
      simp [h, Nat.succ_mul]

theorem length_sampleBytes (f32 : ℚ → List ℕ) (hf32 : ∀ q, (f32 q).length = 4)
    (d : BitDepth) (s : ℚ) : (sampleBytes f32 d s).length = bytesPerSample d := by
  cases d <;> simp [sampleBytes, setInt16LE, setUint16LE, int24Bytes, bytesPerSample,
    BitDepth.bits, hf32]

theorem length_wavData (f32 : ℚ → List ℕ) (hf32 : ∀ q, (f32 q).length = 4)
    (b : ModelAudioBuffer) (d : BitDepth) :
    (wavData f32 b d).length = b.length * b.numberOfChannels * bytesPerSample d := by
  rw [wavData, Nat.mul_assoc]
  refine length_bind_const _ _ _ (fun off => ?_)
  exact length_bind_const _ _ _ (fun ch => length_sampleBytes f32 hf32 d _)

theorem length_wavHeader (b : ModelAudioBuffer) (d : BitDepth) :
    (wavHeader b d).length = 44 := by
  simp [wavHeader, setUint32LE, setUint16LE]

/-! ## C1: WAV header layout -/

set_option maxHeartbeats 3200000 in
/-- C1: for every rendered AudioBuffer and bit depth in {16, 24, 32}, the WAV
encoder emits a byte buffer beginning with a 44-byte header: bytes 0-3
"RIFF", bytes 4-7 the total file length minus 8 (little-endian), bytes 8-11
"WAVE", a "fmt " subchunk of declared length 16 with audio format 1 (PCM),
the channel count, the sample rate, byte rate sampleRate * channels *
(bitDepth/8), block align channels * (bitDepth/8) and bits-per-sample =
bitDepth, then a "data" subchunk whose declared length is frames * channels
* (bitDepth/8).  (f32 is any 4-byte float32 serializer, as DataView
guarantees.) -/
theorem wav_header_layout (f32 : ℚ → List ℕ) (hf32 : ∀ q, (f32 q).length = 4)
    (b : ModelAudioBuffer) (d : BitDepth) :
    (audioBufferToWav f32 b d).length =
      44 + b.length * b.numberOfChannels * (d.bits / 8) ∧
    (audioBufferToWav f32 b d).take 4 = [0x52, 0x49, 0x46, 0x46] ∧
    ((audioBufferToWav f32 b d).drop 4).take 4 =
      setUint32LE (44 + b.length * b.numberOfChannels * (d.bits / 8) - 8) ∧
    ((audioBufferToWav f32 b d).drop 8).take 4 = [0x57, 0x41, 0x56, 0x45] ∧
    ((audioBufferToWav f32 b d).drop 12).take 4 = [0x66, 0x6d, 0x74, 0x20] ∧
    ((audioBufferToWav f32 b d).drop 16).take 4 = setUint32LE 16 ∧
    ((audioBufferToWav f32 b d).drop 20).take 2 = setUint16LE 1 ∧
    ((audioBufferToWav f32 b d).drop 22).take 2 = setUint16LE b.numberOfChannels ∧
    ((audioBufferToWav f32 b d).drop 24).take 4 = setUint32LE b.sampleRate ∧
    ((audioBufferToWav f32 b d).drop 28).take 4 =
      setUint32LE (b.sampleRate * b.numberOfChannels * (d.bits / 8)) ∧
    ((audioBufferToWav f32 b d).drop 32).take 2 =
      setUint16LE (b.numberOfChannels * (d.bits / 8)) ∧
    ((audioBufferToWav f32 b d).drop 34).take 2 = setUint16LE d.bits ∧
    ((audioBufferToWav f32 b d).drop 36).take 4 = [0x64, 0x61, 0x74, 0x61] ∧
    ((audioBufferToWav f32 b d).drop 40).take 4 =
      setUint32LE (b.length * b.numberOfChannels * (d.bits / 8)) := by
  refine ⟨?_, rfl, rfl, rfl, rfl, rfl, rfl, rfl, rfl, rfl, rfl, rfl, rfl, rfl⟩
  rw [audioBufferToWav, List.length_append, length_wavHeader,
    length_wavData f32 hf32 b d, bytesPerSample]

/-- Witness for C1 at a concrete one-frame mono buffer at 16-bit depth. -/
theorem wav_header_layout_witness :
    (audioBufferToWav (fun _ => [0, 0, 0, 0]) ⟨1, 1, 3, fun _ _ => 0⟩ BitDepth.b16).length =
      46 ∧
    (audioBufferToWav (fun _ => [0, 0, 0, 0]) ⟨1, 1, 3, fun _ _ => 0⟩ BitDepth.b16).take 4 =
      [0x52, 0x49, 0x46, 0x46] :=
  ⟨(wav_header_layout (fun _ => [0, 0, 0, 0]) (fun _ => rfl) ⟨1, 1, 3, fun _ _ => 0⟩
      BitDepth.b16).1,
   (wav_header_layout (fun _ => [0, 0, 0, 0]) (fun _ => rfl) ⟨1, 1, 3, fun _ _ => 0⟩
      BitDepth.b16).2.1⟩

/-! ## C2: per-sample encoding -/

theorem jsTrunc_le (q : ℚ) (m : ℕ) (h : q ≤ m) : jsTrunc q ≤ m := by
  unfold jsTrunc
  split
  · rename_i hq
    have h0 : (0:ℤ) ≤ ⌊-q⌋ := Int.floor_nonneg.mpr (by linarith)
    omega
  · calc ⌊q⌋ ≤ ⌊(m:ℚ)⌋ := Int.floor_mono h
      _ = m := Int.floor_natCast m

theorem jsTrunc_ge (q : ℚ) (m : ℕ) (h : -(m:ℚ) ≤ q) : -(m:ℤ) ≤ jsTrunc q := by
  unfold jsTrunc
  split
  · rename_i hq
    have h3 : ⌊-q⌋ ≤ ⌊(m:ℚ)⌋ := Int.floor_mono (by linarith)
    rw [Int.floor_natCast] at h3
    omega
  · rename_i hq
    push_neg at hq
    have h3 : (0:ℤ) ≤ ⌊q⌋ := Int.floor_nonneg.mpr hq
    omega

theorem clampSample_mem (s : ℚ) : -1 ≤ clampSample s ∧ clampSample s ≤ 1 :=
  ⟨le_max_left _ _, max_le (by norm_num) (min_le_left _ _)⟩

theorem quant16_bounds (s : ℚ) : -32768 ≤ quant16 s ∧ quant16 s ≤ 32767 := by
  obtain ⟨h1, h2⟩ := clampSample_mem s
  have hq : quant16 s =
      jsTrunc (if clampSample s < 0 then clampSample s * 32768
               else clampSample s * 32767) := rfl
  rw [hq]
  by_cases hc : clampSample s < 0
  · rw [if_pos hc]
    constructor
    · have h3 := jsTrunc_ge (clampSample s * 32768) 32768 (by push_cast; nlinarith)
      omega
    · have h3 := jsTrunc_le (clampSample s * 32768) 0 (by push_cast; nlinarith)
      omega
  · rw [if_neg hc]
    push_neg at hc
    constructor
    · have h3 := jsTrunc_ge (clampSample s * 32767) 0 (by push_cast; nlinarith)
      omega
    · have h3 := jsTrunc_le (clampSample s * 32767) 32767 (by push_cast; nlinarith)
      omega

theorem quant24_bounds (s : ℚ) : -8388608 ≤ quant24 s ∧ quant24 s ≤ 8388607 := by
  obtain ⟨h1, h2⟩ := clampSample_mem s
  have hq : quant24 s =
      jsTrunc (if clampSample s < 0 then clampSample s * 8388608
               else clampSample s * 8388607) := rfl
  rw [hq]
  by_cases hc : clampSample s < 0
  · rw [if_pos hc]
    constructor
    · have h3 := jsTrunc_ge (clampSample s * 8388608) 8388608 (by push_cast; nlinarith)
      omega
    · have h3 := jsTrunc_le (clampSample s * 8388608) 0 (by push_cast; nlinarith)
      omega
  · rw [if_neg hc]
    push_neg at hc
    constructor
    · have h3 := jsTrunc_ge (clampSample s * 8388607) 0 (by push_cast; nlinarith)
      omega
    · have h3 := jsTrunc_le (clampSample s * 8388607) 8388607 (by push_cast; nlinarith)
      omega

theorem readInt16LE_setInt16LE (v : ℤ) (h1 : -32768 ≤ v) (h2 : v ≤ 32767) :
    readInt16LE (setInt16LE v) = v := by
  simp only [readInt16LE, setInt16LE, setUint16LE, readUint16LE]
  split <;> omega

theorem readInt24LE_int24Bytes (v : ℤ) (h1 : -8388608 ≤ v) (h2 : v ≤ 8388607) :
    readInt24LE (int24Bytes v) = v := by
  simp only [readInt24LE, int24Bytes]
  split <;> omega

/-- C2 amended: for every sample s, the 16-bit branch stores the clamped,
scaled (x0x8000 negative, x0x7FFF otherwise) and truncated value quant16 s as
a little-endian signed 16-bit word (in range, and the bytes decode back to
it); the 24-bit branch stores quant24 s as exactly 3 raw little-endian
two's-complement bytes with no float path; the 32-bit branch stores the
CLAMPED sample - not s itself - as an IEEE-754 float32 with no scaling or
quantization. -/
theorem wav_sample_encoding (f32 : ℚ → List ℕ) (s : ℚ) :
    (sampleBytes f32 .b16 s = setInt16LE (quant16 s) ∧
     -32768 ≤ quant16 s ∧ quant16 s ≤ 32767 ∧
     readInt16LE (sampleBytes f32 .b16 s) = quant16 s) ∧
    (sampleBytes f32 .b24 s = int24Bytes (quant24 s) ∧
     (sampleBytes f32 .b24 s).length = 3 ∧
     -8388608 ≤ quant24 s ∧ quant24 s ≤ 8388607 ∧
     readInt24LE (sampleBytes f32 .b24 s) = quant24 s) ∧
    sampleBytes f32 .b32 s = f32 (clampSample s) := by
  obtain ⟨ha, hb⟩ := quant16_bounds s
  obtain ⟨hc, hd⟩ := quant24_bounds s
  exact ⟨⟨rfl, ha, hb, readInt16LE_setInt16LE _ ha hb⟩,
         ⟨rfl, rfl, hc, hd, readInt24LE_int24Bytes _ hc hd⟩, rfl⟩

/-- C2 counterexample: the 32-bit branch does not store the input sample s
unmodified: the clamp runs before the bit-depth switch, so at s = 2 the value
handed to DataView.setFloat32 is 1, not 2.  Exhibited through an injective
stand-in serializer (numerator and denominator), for which the emitted bytes
differ from the serialization of s. -/
theorem wav32_passthrough_counterexample :
    sampleBytes (fun q => [q.num.natAbs, q.den]) .b32 2 = [1, 1] ∧
    (fun (q : ℚ) => [q.num.natAbs, q.den]) 2 = [2, 1] ∧
    ([1, 1] : List ℕ) ≠ [2, 1] := by
  refine ⟨?_, by norm_num, by simp⟩
  show (fun (q : ℚ) => [q.num.natAbs, q.den]) (clampSample 2) = [1, 1]
  norm_num [clampSample]

/-! ## C4: setters do not clamp -/

/-- C4 amended: a setter applies the raw input value with no clamping: for an
active session, setBass(v) sets the bass shelf gain target to exactly v
(time constant 0.1), so setBass(100) yields a 100 dB target, a state
different from the one setBass(15) produces. -/
theorem setBass_applies_raw (e : AudioEngine) (c : Ctx) (f : BiquadFilterNode)
    (hc : e.context = some c) (hf : e.bassFilter = some f) (v : ℚ) :
    (setBass v e).bassFilter = some { f with gain := ⟨v, 0.1⟩ } := by
  unfold setBass
  rw [hc, hf]

/-- Witness for C4 amended: setBass(100) on the live default engine. -/
theorem setBass_applies_raw_witness :
    (setBass 100 engine0).bassFilter =
      some ⟨0, "lowshelf", ⟨120, 0⟩, ⟨1, 0⟩, ⟨100, 0.1⟩⟩ :=
  setBass_applies_raw engine0 ⟨0, 48000⟩ ⟨0, "lowshelf", ⟨120, 0⟩, ⟨1, 0⟩, ⟨0, 0⟩⟩
    rfl rfl 100

/-- C4 counterexample: out-of-range input is not clamped before application:
on the live default engine, setBass(100) leaves the bass shelf gain target
at 100 dB while setBass(15) leaves it at 15 dB; the resulting engine states
differ. -/
theorem setBass_no_clamp_counterexample :
    ((setBass 100 engine0).bassFilter.map fun f => f.gain.target) = some 100 ∧
    ((setBass 15 engine0).bassFilter.map fun f => f.gain.target) = some 15 ∧
    setBass 100 engine0 ≠ setBass 15 engine0 := by
  refine ⟨rfl, rfl, fun h => ?_⟩
  have h1 : ((setBass 100 engine0).bassFilter.map fun f => f.gain.target) =
      ((setBass 15 engine0).bassFilter.map fun f => f.gain.target) := by rw [h]
  rw [show ((setBass 100 engine0).bassFilter.map fun f => f.gain.target) =
        some 100 from rfl,
      show ((setBass 15 engine0).bassFilter.map fun f => f.gain.target) =
        some 15 from rfl] at h1
  exact absurd (Option.some.inj h1) (by norm_num)

/-! ## C5: theater macro and setBass do not add -/

/-- C5 amended: the theater macro and setBass are last-write-wins on the same
AudioParam, not additive: for an active session with a bass filter,
setTheaterMode(true) then setBass(v) ends with bass gain target v (not 4+v),
and setBass(v) then setTheaterMode(true) ends with 4. -/
theorem theater_bass_last_write_wins (e : AudioEngine) (c : Ctx) (f : BiquadFilterNode)
    (hc : e.context = some c) (hf : e.bassFilter = some f) (v : ℚ) :
    ((setBass v (setTheaterMode true e)).bassFilter.map fun g => g.gain.target) = some v ∧
    ((setTheaterMode true (setBass v e)).bassFilter.map fun g => g.gain.target) = some 4 := by
  have h1 : (setTheaterMode true e).context = some c := by
    unfold setTheaterMode
    rw [hc]
    rfl
  have h2 : (setTheaterMode true e).bassFilter = some { f with gain := ⟨4, 0.5⟩ } := by
    unfold setTheaterMode
    rw [hc]
    show filterGainTarget 4 0.5 e.bassFilter = _
    rw [hf]
    rfl
  have h3 : (setBass v e).context = some c := by
    unfold setBass
    rw [hc, hf]
  have h4 : (setBass v e).bassFilter = some { f with gain := ⟨v, 0.1⟩ } := by
    unfold setBass
    rw [hc, hf]
  constructor
  · unfold setBass
    rw [h1, h2]
    rfl
  · unfold setTheaterMode
    rw [h3]
    show Option.map _ (filterGainTarget 4 0.5 (setBass v e).bassFilter) = some 4
    rw [h4]
    rfl

/-- Witness for C5 amended on the live default engine with v = 2. -/
theorem theater_bass_last_write_wins_witness :
    ((setBass 2 (setTheaterMode true engine0)).bassFilter.map fun g => g.gain.target) =
      some 2 ∧
    ((setTheaterMode true (setBass 2 engine0)).bassFilter.map fun g => g.gain.target) =
      some 4 :=
  theater_bass_last_write_wins engine0 ⟨0, 48000⟩
    ⟨0, "lowshelf", ⟨120, 0⟩, ⟨1, 0⟩, ⟨0, 0⟩⟩ rfl rfl 2

/-- C5 counterexample: on the live default engine, setTheaterMode(true)
followed by setBass(2) leaves the bass shelf gain target at 2 dB, and
2 is not the claimed 4 + 2 = 6 dB. -/
theorem theater_bass_counterexample :
    ((setBass 2 (setTheaterMode true engine0)).bassFilter.map fun g => g.gain.target) =
      some 2 ∧ (2 : ℚ) ≠ 6 :=
  ⟨rfl, by norm_num⟩

/-! ## C8: setters are silent no-ops with no session -/

/-- C8: with no active session (context null) every setter of the parameter
surface - setVolume, setBass, setTreble, setVocalClarity, setReverb, setDRC,
setTheaterMode, setHdMode, setHeightLevel, setLfeCrossover,
setSpeakerCalibration, setSpatialPosition and applyPreset - returns normally
(applyPreset does not even reach its non-null assertion) and leaves the
engine state unchanged. -/
theorem setters_noop_uninitialized (e : AudioEngine) (h : e.context = none)
    (v x y z hz dms pms : ℚ) (b : Bool) (name : String) (noise : ℕ → ℚ) :
    setVolume v e = e ∧ setBass v e = e ∧ setTreble v e = e ∧
    setVocalClarity v e = e ∧ setReverb v e = e ∧ setDRC v e = e ∧
    setTheaterMode b e = e ∧ setHdMode b e = e ∧ setHeightLevel v e = e ∧
    setLfeCrossover hz e = e ∧ setSpeakerCalibration dms pms e = e ∧
    setSpatialPosition x y z e = e ∧ applyPreset noise name e = some e := by
  unfold setVolume setBass setTreble setVocalClarity setReverb setDRC
    setTheaterMode setHdMode setHeightLevel setLfeCrossover
    setSpeakerCalibration setSpatialPosition applyPreset
  rw [h]
  exact ⟨rfl, rfl, rfl, rfl, rfl, rfl, rfl, rfl, rfl, rfl, rfl, rfl, rfl⟩

/-- Witness for C8 on a freshly constructed engine (context null). -/
theorem setters_noop_uninitialized_witness :
    setVolume 3 freshEngine = freshEngine ∧
    applyPreset (fun _ => 0) "IMAX Enhanced" freshEngine = some freshEngine := by
  have h := setters_noop_uninitialized freshEngine rfl 3 0 0 0 0 0 0 true
    "IMAX Enhanced" (fun _ => 0)
  exact ⟨h.1, h.2.2.2.2.2.2.2.2.2.2.2.2⟩

/-! ## C9: analyser data shape -/

/-- C9 amended: getAnalyserData returns, when an analyser node exists, an
array of length fftSize / 2 whose entries are bytes in [0, 255] (and any
init configures fftSize = 2048, so a live session yields length 1024); but
before init or after a failed session (no analyser) it returns a
zero-length array, not one of length fftSize / 2. -/
theorem getAnalyserData_shape (snapshot : ℕ → ℕ) (e : AudioEngine) :
    (∀ a, e.analyser = some a →
      (getAnalyserData snapshot e).length = a.fftSize / 2) ∧
    (∀ x ∈ getAnalyserData snapshot e, x ≤ 255) ∧
    (e.analyser = none → getAnalyserData snapshot e = []) ∧
    (∀ c r n, (getAnalyserData snapshot (init c r n e)).length = 1024) := by
  refine ⟨fun a ha => ?_, fun x hx => ?_, fun ha => ?_, fun c r n => ?_⟩
  · rw [getAnalyserData, ha]
    simp
  · unfold getAnalyserData at hx
    rcases he : e.analyser with _ | a
    · rw [he] at hx
      simp at hx
    · rw [he] at hx
      simp only [List.mem_map] at hx
      obtain ⟨i, _, rfl⟩ := hx
      have h256 : snapshot i % 256 < 256 := Nat.mod_lt _ (by norm_num)
      omega
  · rw [getAnalyserData, ha]
  · have ha2 : (init c r n e).analyser = some ⟨c, 2048⟩ := rfl
    rw [getAnalyserData, ha2]
    show (List.map (fun i => snapshot i % 256) (List.range (2048 / 2))).length = 1024
    rw [List.length_map, List.length_range]

/-- Witness for C9 amended: on the live default engine the array has 1024
entries. -/
theorem getAnalyserData_shape_witness :
    (getAnalyserData (fun _ => 7) engine0).length = 2048 / 2 :=
  (getAnalyserData_shape (fun _ => 7) engine0).1 ⟨0, 2048⟩ rfl

/-- C9 counterexample: before init the analyser is null and getAnalyserData
returns new Uint8Array(0): length 0, not fftSize / 2 = 1024. -/
theorem getAnalyserData_before_init_counterexample :
    getAnalyserData (fun _ => 0) freshEngine = [] ∧
    (getAnalyserData (fun _ => 0) freshEngine).length = 0 ∧
    (0 : ℕ) ≠ 1024 :=
  ⟨rfl, rfl, by norm_num⟩

/-! ## C6: preset idempotence -/

theorem filterGainTarget_comp (v tc w tc2 : ℚ) (o : Option BiquadFilterNode) :
    filterGainTarget v tc (filterGainTarget w tc2 o) = filterGainTarget v tc o := by
  cases o <;> rfl

/-- C6: applyPreset(name) is idempotent on the filter-gain state: if one
call on any engine succeeds and yields e1, a second call on e1 succeeds too
and leaves the bass, treble, mid/vocal and x-curve gain params exactly as
after the first call, because the operation first resets bass/treble/mid to
neutral and then layers the preset's fixed offsets (the random impulse
response is outside the claimed state). -/
theorem applyPreset_idempotent (noise1 noise2 : ℕ → ℚ) (name : String)
    (e e1 : AudioEngine) (h : applyPreset noise1 name e = some e1) :
    (applyPreset noise2 name e1).map filterGainState = some (filterGainState e1) := by
  unfold applyPreset at h ⊢
  cases hc : e.context with
  | none =>
      rw [hc] at h
      replace h := Option.some.inj h
      subst h
      rw [hc]
      rfl
  | some ctx =>
      rw [hc] at h
      dsimp only at h
      by_cases h1 : name = "IMAX Enhanced"
      · rw [if_pos h1] at h
        cases hr : e.reverbNode with
        | none => rw [hr] at h; exact absurd h (by simp)
        | some r =>
            rw [hr] at h
            replace h := Option.some.inj h
            subst h
            try dsimp only
            rw [if_pos h1]
            try dsimp only
            simp only [Option.map_some', filterGainState, filterGainTarget_comp]
      · rw [if_neg h1] at h
        by_cases h2 : name = "THX Reference"
        · rw [if_pos h2] at h
          replace h := Option.some.inj h
          subst h
          try dsimp only
          rw [if_neg h1, if_pos h2]
          try dsimp only
          simp only [Option.map_some', filterGainState, filterGainTarget_comp]
        · rw [if_neg h2] at h
          by_cases h3 : name = "Concert Auditorium"
          · rw [if_pos h3] at h
            cases hr : e.reverbNode with
            | none => rw [hr] at h; exact absurd h (by simp)
            | some r =>
                rw [hr] at h
                replace h := Option.some.inj h
                subst h
                try dsimp only
                rw [if_neg h1, if_neg h2, if_pos h3]
                try dsimp only
                simp only [Option.map_some', filterGainState, filterGainTarget_comp]
          · rw [if_neg h3] at h
            by_cases h4 : name = "Vintage Cinema"
            · rw [if_pos h4] at h
              replace h := Option.some.inj h
              subst h
              try dsimp only
              rw [if_neg h1, if_neg h2, if_neg h3, if_pos h4]
              try dsimp only
              simp only [Option.map_some', filterGainState, filterGainTarget_comp]
            · rw [if_neg h4] at h
              replace h := Option.some.inj h
              subst h
              try dsimp only
              rw [if_neg h1, if_neg h2, if_neg h3, if_neg h4]
              try dsimp only
              simp only [Option.map_some', filterGainState, filterGainTarget_comp]

/-- Witness for C6: a preset applied twice on the live default engine. -/
theorem applyPreset_idempotent_witness :
    (applyPreset (fun _ => 0) "Pure Direct" presetOnce).map filterGainState =
      some (filterGainState presetOnce) :=
  applyPreset_idempotent (fun _ => 0) (fun _ => 0) "Pure Direct" engine0 presetOnce rfl


/-! ## C3: offline render duration -/

theorem readUint32LE_setUint32LE (n : ℕ) :
    readUint32LE (setUint32LE n) = n % 4294967296 := by
  simp only [setUint32LE, readUint32LE]
  omega

theorem bytesPerSample_pos (d : BitDepth) : 0 < bytesPerSample d := by
  cases d <;> decide

set_option maxHeartbeats 1600000 in
/-- C3 amended: the WAV produced by renderOffline declares the target sample
rate and exactly the decoded buffer's frame count: the frame count is NOT
rescaled by the rate ratio, so the declared duration frames/rate equals the
decoded source duration if and only if the target rate equals the decode
rate. -/
theorem renderOffline_duration (e : AudioEngine) (decoded : ModelAudioBuffer)
    (s : AudioSettings) (off : ℕ) (n1 n2 : ℕ → ℚ) (dsp : ℕ → ℕ → ℚ)
    (f32 : ℚ → List ℕ) (hrate : s.sampleRate < 4294967296)
    (hlen : decoded.length * 2 * bytesPerSample s.bitDepth < 4294967296)
    (hr0 : 0 < s.sampleRate) (hd0 : 0 < decoded.sampleRate) (hl0 : 0 < decoded.length) :
    wavDeclaredSampleRate ((renderOffline e decoded s off n1 n2 dsp f32).2) =
      s.sampleRate ∧
    wavDeclaredFrames ((renderOffline e decoded s off n1 n2 dsp f32).2) 2
      (bytesPerSample s.bitDepth) = decoded.length ∧
    (wavDeclaredDuration ((renderOffline e decoded s off n1 n2 dsp f32).2) 2
        (bytesPerSample s.bitDepth) =
      (decoded.length : ℚ) / (decoded.sampleRate : ℚ) ↔
      s.sampleRate = decoded.sampleRate) := by
  have h24 : ((renderOffline e decoded s off n1 n2 dsp f32).2.drop 24).take 4 =
      setUint32LE s.sampleRate := rfl
  have h40 : ((renderOffline e decoded s off n1 n2 dsp f32).2.drop 40).take 4 =
      setUint32LE (decoded.length * 2 * bytesPerSample s.bitDepth) := rfl
  have hsr : wavDeclaredSampleRate ((renderOffline e decoded s off n1 n2 dsp f32).2) =
      s.sampleRate := by
    rw [wavDeclaredSampleRate, h24, readUint32LE_setUint32LE, Nat.mod_eq_of_lt hrate]
  have hfr : wavDeclaredFrames ((renderOffline e decoded s off n1 n2 dsp f32).2) 2
      (bytesPerSample s.bitDepth) = decoded.length := by
    rw [wavDeclaredFrames, wavDeclaredDataLength, h40, readUint32LE_setUint32LE,
      Nat.mod_eq_of_lt hlen, Nat.mul_assoc, Nat.mul_div_cancel _ ?_]
    have := bytesPerSample_pos s.bitDepth
    positivity
  refine ⟨hsr, hfr, ?_⟩
  rw [wavDeclaredDuration, hsr, hfr]
  rw [div_eq_div_iff (by positivity) (by positivity)]
  constructor
  · intro hmul
    field_simp at hmul
    rcases hmul with hmul | hmul
    · exact hmul.symm
    · omega
  · intro hEq
    rw [hEq]

/-- Witness for C3 amended at a concrete 2-frame render. -/
theorem renderOffline_duration_witness :
    wavDeclaredSampleRate ((renderOffline freshEngine ⟨2, 2, 1, fun _ _ => 0⟩ settings0 1
      (fun _ => 0) (fun _ => 0) (fun _ _ => 0) (fun _ => [0, 0, 0, 0])).2) =
      settings0.sampleRate :=
  (renderOffline_duration freshEngine ⟨2, 2, 1, fun _ _ => 0⟩ settings0 1
    (fun _ => 0) (fun _ => 0) (fun _ _ => 0) (fun _ => [0, 0, 0, 0])
    (by decide) (by decide) (by decide) (by decide) (by decide)).1

set_option maxHeartbeats 800000 in
/-- C3 counterexample: a decoded buffer of 2 frames at 2 Hz (1 second)
rendered at target rate 1 Hz yields a WAV declaring 2 frames at 1 Hz, i.e.
2 seconds, not the source's 1 second: the frame count is not rescaled. -/
theorem renderOffline_duration_counterexample :
    wavDeclaredSampleRate ((renderOffline freshEngine ⟨2, 2, 2, fun _ _ => 0⟩ settings0 1
      (fun _ => 0) (fun _ => 0) (fun _ _ => 0) (fun _ => [0, 0, 0, 0])).2) = 1 ∧
    wavDeclaredFrames ((renderOffline freshEngine ⟨2, 2, 2, fun _ _ => 0⟩ settings0 1
      (fun _ => 0) (fun _ => 0) (fun _ _ => 0) (fun _ => [0, 0, 0, 0])).2) 2 2 = 2 ∧
    wavDeclaredDuration ((renderOffline freshEngine ⟨2, 2, 2, fun _ _ => 0⟩ settings0 1
      (fun _ => 0) (fun _ => 0) (fun _ _ => 0) (fun _ => [0, 0, 0, 0])).2) 2 2 = 2 ∧
    (2 : ℚ) ≠ (2 : ℚ) / (2 : ℚ) := by
  refine ⟨rfl, rfl, ?_, by norm_num⟩
  rw [wavDeclaredDuration,
    show wavDeclaredFrames ((renderOffline freshEngine ⟨2, 2, 2, fun _ _ => 0⟩ settings0 1
      (fun _ => 0) (fun _ => 0) (fun _ _ => 0) (fun _ => [0, 0, 0, 0])).2) 2 2 = 2 from rfl,
    show wavDeclaredSampleRate ((renderOffline freshEngine ⟨2, 2, 2, fun _ _ => 0⟩ settings0 1
      (fun _ => 0) (fun _ => 0) (fun _ _ => 0) (fun _ => [0, 0, 0, 0])).2) = 1 from rfl]
  norm_num


/-! ## C7: impulse-response randomness and C10: node ownership -/

/-- C7 amended: offline rendering is deterministic only relative to the
Math.random draws: createImpulseResponse is a pure function of sample rate,
duration, decay and the consumed noise sequence - two synthesis runs whose
draw sequences agree on the 2 x length consumed samples produce
sample-for-sample identical stereo buffers - but nothing fixes the draws
across calls, so two renderOffline calls with a nonzero reverbLevel need
not be byte-identical (see the counterexample). -/
theorem createImpulseResponse_deterministic (sr : ℕ) (dur decay : ℚ)
    (n1 n2 : ℕ → ℚ) (h : ∀ k, k < 2 * irLength sr dur → n1 k = n2 k) (c i : ℕ) :
    (createImpulseResponse sr dur decay n1).sample c i =
    (createImpulseResponse sr dur decay n2).sample c i := by
  unfold IRBuffer.sample createImpulseResponse
  dsimp only
  split
  · rename_i hci
    obtain ⟨hc2, hi⟩ := hci
    have hcle : c * irLength sr dur ≤ 1 * irLength sr dur :=
      Nat.mul_le_mul_right _ (by omega)
    rw [h (c * irLength sr dur + i) (by omega)]
  · rfl

/-- Witness for C7 amended: equal draws on the consumed range give equal
samples even when the streams differ beyond it. -/
theorem createImpulseResponse_deterministic_witness :
    (createImpulseResponse 2 1 3 (fun _ => 0)).sample 0 0 =
    (createImpulseResponse 2 1 3 (fun k => if k < 2 * irLength 2 1 then 0 else 5)).sample
      0 0 :=
  createImpulseResponse_deterministic 2 1 3 _ _ (fun k hk => (if_pos hk).symm) 0 0

/-- C7 counterexample: the impulse response synthesized during renderOffline
is not reproducible across calls: with two different Math.random draw
sequences (constant 1/2 versus constant -1/2) and identical parameters
(the default graph IR: duration 1.2, decay 3.0 at 48 kHz) the buffers
already differ at channel 0, sample 0, where the envelope is
Math.pow(1, decay) = 1. -/
theorem impulse_response_random_counterexample :
    (createImpulseResponse 48000 1.2 3.0 (fun _ => 1/2)).sample 0 0 = 1/2 ∧
    (createImpulseResponse 48000 1.2 3.0 (fun _ => -1/2)).sample 0 0 = -1/2 ∧
    ((1 : ℝ)/2) ≠ -1/2 := by
  have hfloor : (⌊(48000 : ℚ) * 1.2⌋ : ℤ) = 57600 := by norm_num
  have hl : irLength 48000 1.2 = 57600 := by
    show (⌊(48000 : ℚ) * 1.2⌋ : ℤ).toNat = 57600
    rw [hfloor]
    rfl
  refine ⟨?_, ?_, by norm_num⟩ <;>
  · simp only [IRBuffer.sample, createImpulseResponse]
    rw [hl]
    norm_num [Real.one_rpow]

/-- C10 helper: setupGraph populates every node field on the given context. -/
theorem setupGraph_nodesOnCtx (c r : ℕ) (n : ℕ → ℚ) (e : AudioEngine) :
    nodesOnCtx (setupGraph c r n e) c :=
  ⟨rfl, rfl, rfl, rfl, rfl, rfl, rfl, rfl, rfl, rfl, rfl, rfl, rfl, rfl, rfl, rfl, rfl⟩

/-- renderOffline leaves this.context untouched (still the live context)
while setupGraph reassigned every node field to offline-context nodes. -/
theorem renderOffline_engine_fields (e : AudioEngine) (decoded : ModelAudioBuffer)
    (s : AudioSettings) (off : ℕ) (n1 n2 : ℕ → ℚ) (dsp : ℕ → ℕ → ℚ)
    (f32 : ℚ → List ℕ) :
    (renderOffline e decoded s off n1 n2 dsp f32).1.context = e.context ∧
    nodesOnCtx ((renderOffline e decoded s off n1 n2 dsp f32).1) off := by
  unfold renderOffline
  dsimp only
  split_ifs <;>
    exact ⟨rfl, rfl, rfl, rfl, rfl, rfl, rfl, rfl, rfl, rfl, rfl, rfl, rfl, rfl, rfl,
      rfl, rfl, rfl⟩

set_option maxHeartbeats 800000 in
/-- C10: renderOffline is not effect-free on the live session: afterwards the
engine still holds the live context, but every node-handle field (panner,
gain, analyser, compressor, all nine filters, delay, reverb, dry/wet gains)
belongs to the discarded OfflineAudioContext; consequently a subsequent
setBass(v) passes its guard (context and node non-null) and mutates a node
owned by the offline context - never a node of the live context - until init
rebuilds the graph. -/
theorem renderOffline_hijacks_live_nodes (e : AudioEngine) (live : Ctx)
    (hc : e.context = some live) (decoded : ModelAudioBuffer) (s : AudioSettings)
    (off : ℕ) (hoff : off ≠ live.id) (n1 n2 : ℕ → ℚ) (dsp : ℕ → ℕ → ℚ)
    (f32 : ℚ → List ℕ) (v : ℚ) :
    (renderOffline e decoded s off n1 n2 dsp f32).1.context = some live ∧
    nodesOnCtx ((renderOffline e decoded s off n1 n2 dsp f32).1) off ∧
    (∀ cid, ((renderOffline e decoded s off n1 n2 dsp f32).1.bassFilter.map
        BiquadFilterNode.ctxId) = some cid → cid ≠ live.id) ∧
    ((setBass v ((renderOffline e decoded s off n1 n2 dsp f32).1)).bassFilter.map
        BiquadFilterNode.ctxId) = some off ∧
    (setBass v ((renderOffline e decoded s off n1 n2 dsp f32).1)).context = some live := by
  obtain ⟨hctx, hnodes⟩ :=
    renderOffline_engine_fields e decoded s off n1 n2 dsp f32
  have hctx2 : (renderOffline e decoded s off n1 n2 dsp f32).1.context = some live := by
    rw [hctx, hc]
  have hbass := hnodes.2.2.2.2.1
  rcases hb : (renderOffline e decoded s off n1 n2 dsp f32).1.bassFilter with _ | f
  · rw [hb] at hbass
    exact absurd hbass (by simp)
  · rw [hb] at hbass
    simp only [Option.map_some'] at hbass
    replace hbass := Option.some.inj hbass
    refine ⟨hctx2, hnodes, ?_, ?_, ?_⟩
    · intro cid hcid
      simp only [Option.map_some'] at hcid
      replace hcid := Option.some.inj hcid
      rw [← hcid, hbass]
      exact hoff
    · unfold setBass
      rw [hctx2, hb]
      show some ({ f with gain := ⟨v, 0.1⟩ } : BiquadFilterNode).ctxId = some off
      rw [show ({ f with gain := ⟨v, 0.1⟩ } : BiquadFilterNode).ctxId = f.ctxId from rfl,
        hbass]
    · unfold setBass
      rw [hctx2, hb]


/-- Witness for C10: a concrete render on the live default engine, with the
offline context id 1 distinct from the live id 0. -/
theorem renderOffline_hijacks_live_nodes_witness :
    (renderOffline engine0 ⟨2, 2, 2, fun _ _ => 0⟩ settings0 1 (fun _ => 0) (fun _ => 0)
      (fun _ _ => 0) (fun _ => [0, 0, 0, 0])).1.context = some ⟨0, 48000⟩ ∧
    ((setBass 5 ((renderOffline engine0 ⟨2, 2, 2, fun _ _ => 0⟩ settings0 1 (fun _ => 0)
      (fun _ => 0) (fun _ _ => 0) (fun _ => [0, 0, 0, 0])).1)).bassFilter.map
        BiquadFilterNode.ctxId) = some 1 := by
  have h := renderOffline_hijacks_live_nodes engine0 ⟨0, 48000⟩ rfl
    ⟨2, 2, 2, fun _ _ => 0⟩ settings0 1 (by decide) (fun _ => 0) (fun _ => 0)
    (fun _ _ => 0) (fun _ => [0, 0, 0, 0]) 5
  exact ⟨h.1, h.2.2.2.1⟩


end StagePOV
